import Mathlib

/-!
Verification of the file-path scanner pipeline (`main.go`).

The program walks a directory tree with `filepath.WalkDir`, pushes every
non-directory path into a channel, and a consumer loop batches the paths
into CSV rows (`path, strconv.Itoa(len(path))`), flushing each batch with
`csv.Writer.WriteAll` once it reaches `batchSize`, then flushing the final
partial batch after the channel closes.  A shared atomic counter
`fileCount` is bumped by the batch length right after each flush.

Because the channel is a FIFO with a single producer and a single
consumer, the observable behaviour of the pipeline is the sequential
composition modelled here: the walk produces the list of queued paths
(cut short at the first traversal error), and the consumer folds the
batching step over that list.
-/

/-- A filesystem entry as observed by `filepath.WalkDir` through its
`fs.DirEntry` argument.  `WalkDir` does not follow symbolic links, so a
symlink is reported with `IsDir() = false` even when its `target`
resolves to a directory; `unreadableDir` is a directory whose `ReadDir`
fails, making `WalkDir` invoke the callback a second time with a non-nil
error. -/
inductive FSEntry where
  | file (name : String)
  | symlink (name : String) (target : List FSEntry)
  | dir (name : String) (entries : List FSEntry)
  | unreadableDir (name : String) (errMsg : String)

mutual

/-- One step of `filepath.WalkDir` with the callback of `main.go`
(lines 94-103): a non-directory entry (`!d.IsDir()`) pushes its joined
path to the channel; a directory is descended into; a read error is
returned by the callback, aborting the whole walk (`WalkDir` does not
follow symbolic links, so a symlink is emitted as a plain entry and its
target is never visited).  Returns the pushed paths in discovery order
and the error returned by the walk, if any. -/
def walkEntry (p : String) : FSEntry → List String × Option String
  | .file n => ([p ++ "/" ++ n], none)
  | .symlink n _ => ([p ++ "/" ++ n], none)
  | .unreadableDir _ e => ([], some e)
  | .dir n es => walkList (p ++ "/" ++ n) es

/-- Walk the children of a directory whose joined path is `p`, in
directory-entry order, aborting at the first error (the callback
returns the error, which `WalkDir` propagates immediately). -/
def walkList (p : String) : List FSEntry → List String × Option String
  | [] => ([], none)
  | e :: es =>
    match walkEntry p e with
    | (ps, some err) => (ps, some err)
    | (ps, none) =>
      match walkList p es with
      | (ps2, err) => (ps ++ ps2, err)

end

mutual

/-- Number of non-directory entries in a subtree (the entries for which
the `WalkDir` callback sees `!d.IsDir()`). -/
def countNonDirEntry : FSEntry → Nat
  | .file _ => 1
  | .symlink _ _ => 1
  | .unreadableDir _ _ => 0
  | .dir _ es => countNonDirList es

/-- Number of non-directory entries in a forest. -/
def countNonDirList : List FSEntry → Nat
  | [] => 0
  | e :: es => countNonDirEntry e + countNonDirList es

end

/-- The CSV row built for one path at batch-append time
(`main.go` lines 110-111): `[]string{path, strconv.Itoa(len(path))}`.
Go's `len` on a string counts UTF-8 bytes, hence `String.utf8ByteSize`. -/
def record (path : String) : List String :=
  [path, Nat.repr path.utf8ByteSize]

/-- The header row written before the pipeline starts
(`main.go` line 56). -/
def headerRow : List String :=
  ["file_path", "path_length"]

/-- State of the consumer loop (`main.go` lines 108-131): the pending
batch (`batch [][]string`), the rows already passed to
`writer.WriteAll` in order (`rows`), and the shared atomic counter
`fileCount`. -/
structure WriterState where
  batch : List (List String)
  rows : List (List String)
  fileCount : Nat
deriving Repr, DecidableEq

/-- Initial consumer state: `batch := make([][]string, 0, batchSize)`,
nothing written, `fileCount = 0`. -/
def initState : WriterState :=
  { batch := [], rows := [], fileCount := 0 }

/-- One iteration of the consumer loop body (`main.go` lines 109-122):
append `record path` to the batch; if the batch has reached
`batchSize`, `WriteAll` it, add its length to the counter, and reset it
to empty. -/
def step (batchSize : Nat) (s : WriterState) (path : String) : WriterState :=
  let batch := s.batch ++ [record path]
  if batchSize ≤ batch.length then
    { batch := [], rows := s.rows ++ batch, fileCount := s.fileCount + batch.length }
  else
    { s with batch := batch }

/-- The final-flush after the channel closes (`main.go` lines 125-131):
if the batch is non-empty it is written once more and counted. -/
def finalFlush (s : WriterState) : WriterState :=
  if 0 < s.batch.length then
    { batch := [], rows := s.rows ++ s.batch, fileCount := s.fileCount + s.batch.length }
  else s

/-- The consumer state after draining the whole queued path list but
before the final flush. -/
def consumeState (batchSize : Nat) (paths : List String) : WriterState :=
  List.foldl (step batchSize) initState paths

/-- The consumer state at the end of the run: drain everything, then
flush the final partial batch. -/
def runWriter (batchSize : Nat) (paths : List String) : WriterState :=
  finalFlush (consumeState batchSize paths)

/-- Result of a full run of the pipeline: the CSV rows in file order,
the process exit code, the traversal error printed to stderr (if any),
and the final value of the counter. -/
structure RunResult where
  csvRows : List (List String)
  exitCode : Nat
  stderrErr : Option String
  finalCount : Nat
deriving Repr, DecidableEq

/-- A full run of the pipeline on a tree rooted at directory `root`
with children `tree`: the producer queues the walked paths (stopping at
the first error), the consumer drains the entire queue and flushes the
final batch, and only then is `scanErr` inspected (`main.go` lines
138-144): a non-nil walk error is printed to stderr and the process
exits 1; otherwise it exits 0.  Rows already written are never removed. -/
def runMain (batchSize : Nat) (root : String) (tree : List FSEntry) : RunResult :=
  let w := walkList root tree
  let s := runWriter batchSize w.1
  match w.2 with
  | some e =>
    { csvRows := headerRow :: s.rows, exitCode := 1, stderrErr := some e,
      finalCount := s.fileCount }
  | none =>
    { csvRows := headerRow :: s.rows, exitCode := 0, stderrErr := none,
      finalCount := s.fileCount }

/-- Go's `encoding/csv` quoting predicate (`fieldNeedsQuotes` with the
default comma separator): a field is quoted when it is the literal
backslash-dot, contains a comma, a quote or a line break, or starts
with white space. -/
def fieldNeedsQuotes (f : String) : Bool :=
  if f = "" then false
  else if f = "\\." then true
  else if f.any (fun c => c = ',' || c = '"' || c = '\r' || c = '\n') then true
  else f.front.isWhitespace

/-- Serialize one CSV field, doubling quotes inside quoted fields. -/
def renderField (f : String) : String :=
  if fieldNeedsQuotes f then "\"" ++ (f.replace ("\"") ("\"\"")) ++ "\"" else f

/-- Serialize one CSV row with the writer's default LF terminator. -/
def renderRow (r : List String) : String :=
  String.intercalate (",") (r.map renderField) ++ "\n"

/-- Serialize the whole CSV file to its byte content. -/
def csvRender (rows : List (List String)) : String :=
  String.join (rows.map renderRow)

/-- Outcome of `os.Stat` on the target path as `main.go` lines 36-44
distinguish: an access error, an existing non-directory, or a
directory. -/
inductive StatResult where
  | statErr (msg : String)
  | statNonDir
  | statDir
deriving Repr, DecidableEq

/-- Models `strconv.Atoi`, which is `ParseInt(s, 10, 0)` with the
64-bit `int` of this platform: an optional `+` or `-` sign followed by
one or more decimal digits; any other character is a syntax error, and
a value outside the signed 64-bit range is an `ErrRange` error.  Both
errors make `err != nil`, modelled as `none`. -/
def parseBatchSize (s : String) : Option Int :=
  let signed : Int × List Char :=
    match s.data with
    | '+' :: cs => (1, cs)
    | '-' :: cs => (-1, cs)
    | cs => (1, cs)
  match signed with
  | (sign, digits) =>
    if digits = [] then none
    else if digits.all (fun c => c.isDigit) then
      let v : Int := sign * (digits.foldl (fun acc c => acc * 10 + Int.ofNat (c.toNat - 48)) 0)
      if v < -(2 ^ 63) ∨ 2 ^ 63 - 1 < v then none else some v
    else none

example : parseBatchSize ("+5") = some 5 := by decide

example : parseBatchSize ("-3") = some (-3) := by decide

example : parseBatchSize ("") = none := by decide

example : parseBatchSize ("1x") = none := by decide

example : parseBatchSize ("9223372036854775807") = some 9223372036854775807 := by
  decide

example : parseBatchSize ("9223372036854775808") = none := by decide

example : parseBatchSize ("99999999999999999999") = none := by decide

/-- The default batch size (`main.go` line 15). -/
def defaultBatchSize : Nat := 100

/-- State after the startup sequence of `main` (lines 18-50): whether
the process exited early (and with which code), the message printed to
stderr, whether `os.Create("file_paths.csv")` was reached, and the
parsed batch size. -/
structure StartupState where
  exitCode : Option Nat
  stderrMsg : Option String
  csvCreated : Bool
  batchSize : Nat
deriving Repr, DecidableEq

/-- The batch-size computed at `main.go` lines 25-33: the default when
no third argument is given, otherwise the parsed argument when it is a
positive integer, and `none` (an exit) when it is malformed or not
positive. -/
def parsedBatchSize (args : List String) : Option Nat :=
  if 3 ≤ args.length then
    match parseBatchSize (args.getD 2 ("")) with
    | none => none
    | some n => if n ≤ 0 then none else some n.toNat
  else some defaultBatchSize

/-- The startup sequence of `main` translated in order: argument-count
check, batch-size parse and positivity check, `os.Stat` check and
`IsDir` check, and only then `os.Create("file_paths.csv")`. -/
def startup (args : List String) (st : StatResult) : StartupState :=
  if args.length < 2 then
    { exitCode := some 1, stderrMsg := some ("Usage: program <directory> [batch_size]"),
      csvCreated := false, batchSize := defaultBatchSize }
  else
    match parsedBatchSize args with
    | none =>
      { exitCode := some 1, stderrMsg := some ("Error: batch_size must be a positive integer"),
        csvCreated := false, batchSize := defaultBatchSize }
    | some b =>
      match st with
      | .statErr m =>
        { exitCode := some 1, stderrMsg := some ("Error accessing path: " ++ m),
          csvCreated := false, batchSize := b }
      | .statNonDir =>
        { exitCode := some 1, stderrMsg := some ("Error: " ++ (args.getD 1 ("")) ++ " is not a directory"),
          csvCreated := false, batchSize := b }
      | .statDir =>
        { exitCode := none, stderrMsg := none, csvCreated := true, batchSize := b }

/-- A batch-size argument is invalid when it does not parse or is not
positive (`main.go` line 28: `err != nil || size <= 0`). -/
def invalidBatchArg (s : String) : Bool :=
  match parseBatchSize s with
  | none => true
  | some n => n ≤ 0

example : walkList ("r") [.file ("a"), .dir ("d") [.file ("b")], .file ("c")]
    = (["r/a", "r/d/b", "r/c"], none) := by decide

example : runMain 2 ("r") [.file ("a"), .dir ("d") [.file ("b")], .file ("c")]
    = { csvRows := [headerRow, record ("r/a"), record ("r/d/b"), record ("r/c")],
        exitCode := 0, stderrErr := none, finalCount := 3 } := by decide

example : record ("r/a") = [("r/a" : String), ("3" : String)] := by decide

/-! ### Helper lemmas about the consumer loop -/

theorem step_rows_batch (bs : Nat) (s : WriterState) (p : String) :
    (step bs s p).rows ++ (step bs s p).batch = s.rows ++ s.batch ++ [record p] := by
  by_cases hc : bs ≤ s.batch.length + 1 <;> simp [step, hc]

theorem step_count_eq (bs : Nat) (s : WriterState) (p : String)
    (h : s.fileCount = s.rows.length) :
    (step bs s p).fileCount = (step bs s p).rows.length := by
  by_cases hc : bs ≤ s.batch.length + 1 <;> simp [step, hc, h]

theorem step_total (bs : Nat) (s : WriterState) (p : String) (n : Nat)
    (h : s.fileCount + s.batch.length = n) :
    (step bs s p).fileCount + (step bs s p).batch.length = n + 1 := by
  by_cases hc : bs ≤ s.batch.length + 1 <;> simp [step, hc] <;> omega

theorem step_batch_lt (bs : Nat) (hbs : 0 < bs) (s : WriterState) (p : String)
    (h : s.batch.length < bs) : (step bs s p).batch.length < bs := by
  by_cases hc : bs ≤ s.batch.length + 1 <;> simp [step, hc]
  · exact hbs
  · omega

theorem foldl_rows_batch (bs : Nat) (paths : List String) :
    ∀ s : WriterState,
      (List.foldl (step bs) s paths).rows ++ (List.foldl (step bs) s paths).batch
        = s.rows ++ s.batch ++ paths.map record := by
  induction paths with
  | nil => intro s; simp
  | cons p ps ih =>
    intro s
    simp only [List.foldl_cons, List.map_cons]
    rw [ih (step bs s p), step_rows_batch]
    simp

theorem foldl_count_eq (bs : Nat) (paths : List String) :
    ∀ s : WriterState, s.fileCount = s.rows.length →
      (List.foldl (step bs) s paths).fileCount
        = (List.foldl (step bs) s paths).rows.length := by
  induction paths with
  | nil => intro s h; simpa using h
  | cons p ps ih => intro s h; exact ih _ (step_count_eq bs s p h)

theorem foldl_total (bs : Nat) (paths : List String) :
    ∀ (s : WriterState) (n : Nat), s.fileCount + s.batch.length = n →
      (List.foldl (step bs) s paths).fileCount
        + (List.foldl (step bs) s paths).batch.length = n + paths.length := by
  induction paths with
  | nil => intro s n h; simpa using h
  | cons p ps ih =>
    intro s n h
    have := ih (step bs s p) (n + 1) (step_total bs s p n h)
    simpa [Nat.add_assoc, Nat.add_comm 1 ps.length] using this

theorem foldl_batch_lt (bs : Nat) (hbs : 0 < bs) (paths : List String) :
    ∀ s : WriterState, s.batch.length < bs →
      (List.foldl (step bs) s paths).batch.length < bs := by
  induction paths with
  | nil => intro s h; simpa using h
  | cons p ps ih => intro s h; exact ih _ (step_batch_lt bs hbs s p h)

theorem finalFlush_batch (s : WriterState) : (finalFlush s).batch = [] := by
  unfold finalFlush
  split
  · rfl
  · next h => exact List.eq_nil_of_length_eq_zero (by omega)

theorem finalFlush_rows (s : WriterState) : (finalFlush s).rows = s.rows ++ s.batch := by
  unfold finalFlush
  split
  · rfl
  · next h =>
    have hb : s.batch = [] := List.eq_nil_of_length_eq_zero (by omega)
    simp [hb]

theorem finalFlush_count_eq (s : WriterState) (h : s.fileCount = s.rows.length) :
    (finalFlush s).fileCount = (finalFlush s).rows.length := by
  unfold finalFlush
  split <;> simp [h]

theorem runWriter_rows (bs : Nat) (paths : List String) :
    (runWriter bs paths).rows = paths.map record := by
  unfold runWriter
  rw [finalFlush_rows]
  have h := foldl_rows_batch bs paths initState
  simpa [consumeState, initState] using h

theorem runWriter_count_eq (bs : Nat) (paths : List String) :
    (runWriter bs paths).fileCount = (runWriter bs paths).rows.length := by
  unfold runWriter
  exact finalFlush_count_eq _ (foldl_count_eq bs paths initState rfl)

theorem runWriter_count_total (bs : Nat) (paths : List String) :
    (runWriter bs paths).fileCount = paths.length := by
  rw [runWriter_count_eq, runWriter_rows, List.length_map]

/-! ### Helper lemmas about the walk -/

theorem walkList_cons_err (p : String) (e : FSEntry) (es : List FSEntry)
    (ps : List String) (m : String) (he : walkEntry p e = (ps, some m)) :
    walkList p (e :: es) = (ps, some m) := by
  simp [walkList, he]

theorem walkList_cons_ok (p : String) (e : FSEntry) (es : List FSEntry)
    (ps : List String) (he : walkEntry p e = (ps, none)) :
    walkList p (e :: es) = (ps ++ (walkList p es).1, (walkList p es).2) := by
  simp [walkList, he]

theorem walkList_append (p : String) (l1 l2 : List FSEntry)
    (h : (walkList p l1).2 = none) :
    walkList p (l1 ++ l2)
      = ((walkList p l1).1 ++ (walkList p l2).1, (walkList p l2).2) := by
  induction l1 with
  | nil => simp [walkList]
  | cons e es ih =>
    rcases he : walkEntry p e with ⟨ps, err⟩
    cases err with
    | some m =>
      rw [walkList_cons_err p e es ps m he] at h
      exact absurd h (by simp)
    | none =>
      rw [walkList_cons_ok p e es ps he] at h
      rw [List.cons_append, walkList_cons_ok p e (es ++ l2) ps he,
        walkList_cons_ok p e es ps he, ih h]
      simp

mutual

theorem walkEntry_count (p : String) (e : FSEntry)
    (h : (walkEntry p e).2 = none) :
    (walkEntry p e).1.length = countNonDirEntry e := by
  cases e with
  | file n => simp [walkEntry, countNonDirEntry]
  | symlink n t => simp [walkEntry, countNonDirEntry]
  | unreadableDir n m => exact absurd h (by simp [walkEntry])
  | dir n es =>
    simp only [walkEntry, countNonDirEntry]
    exact walkList_count (p ++ "/" ++ n) es h

theorem walkList_count (p : String) (l : List FSEntry)
    (h : (walkList p l).2 = none) :
    (walkList p l).1.length = countNonDirList l := by
  cases l with
  | nil => simp [walkList, countNonDirList]
  | cons e es =>
    rcases he : walkEntry p e with ⟨ps, err⟩
    cases err with
    | some m =>
      rw [walkList_cons_err p e es ps m he] at h
      exact absurd h (by simp)
    | none =>
      rw [walkList_cons_ok p e es ps he] at h ⊢
      have h1 := walkEntry_count p e (by rw [he])
      rw [he] at h1
      simp only [countNonDirList, List.length_append, h1]
      rw [walkList_count p es h]

end

/-- The CSV rows of a full run are always the header followed by one
`record` row per queued path, in queue order, whether or not the walk
ended in an error. -/
theorem runMain_rows (bs : Nat) (root : String) (tree : List FSEntry) :
    (runMain bs root tree).csvRows
      = headerRow :: ((walkList root tree).1.map record) := by
  simp only [runMain]
  rcases hw : walkList root tree with ⟨ps, err⟩
  cases err <;> simp [runWriter_rows]

theorem foldl_count_zero (bs : Nat) (paths : List String) :
    ∀ s : WriterState, s.fileCount = 0 → s.batch.length + paths.length < bs →
      (List.foldl (step bs) s paths).fileCount = 0 := by
  induction paths with
  | nil => intro s h _; simpa using h
  | cons p ps ih =>
    intro s h hlt
    simp only [List.length_cons] at hlt
    have hc : ¬ bs ≤ s.batch.length + 1 := by omega
    refine ih (step bs s p) ?_ ?_
    · simp [step, hc, h]
    · simp only [step, hc, if_false, List.length_append, List.length_cons,
        List.length_nil]
      omega

/-- Sample tree used by the witnesses: `r/a`, `r/d/b`, `r/c`. -/
def exTree : List FSEntry :=
  [.file ("a"), .dir ("d") [.file ("b")], .file ("c")]

/-! ### Claim theorems -/

/-- Claim C1: when traversal succeeds fully, the CSV output is exactly
the header row `file_path,path_length` followed by one data row per
non-directory entry of the tree, in the order the walk discovered them;
an empty tree yields a header-only CSV. -/
theorem c1_csv_header_and_rows (bs : Nat) (root : String) (tree : List FSEntry)
    (hok : (walkList root tree).2 = none) :
    (runMain bs root tree).csvRows
        = headerRow :: ((walkList root tree).1.map record)
      ∧ (walkList root tree).1.length = countNonDirList tree
      ∧ (runMain bs root []).csvRows = [headerRow] := by
  refine ⟨runMain_rows bs root tree, walkList_count root tree hok, ?_⟩
  simp [runMain_rows, walkList]

/-- Claim C1 witness: the theorem applied to a concrete three-file tree. -/
theorem c1_csv_header_and_rows_witness :
    (runMain 2 ("r") exTree).csvRows
        = headerRow :: ((walkList ("r") exTree).1.map record)
      ∧ (walkList ("r") exTree).1.length = countNonDirList exTree
      ∧ (runMain 2 ("r") []).csvRows = [headerRow] :=
  c1_csv_header_and_rows 2 ("r") exTree (by decide)

/-- Claim C2 counterexample: the claim reads `path_length` as the
character count of the path, but the program computes Go's `len`,
which counts UTF-8 bytes.  For the file `é` under root `r` the emitted
path `r/é` has 3 characters but the program writes `4`. -/
theorem c2_counterexample :
    ∃ row, row ∈ (runMain 100 ("r") [FSEntry.file ("é")]).csvRows
      ∧ row ≠ headerRow
      ∧ row.getD 1 ("") ≠ Nat.repr ((row.getD 0 ("")).length)
      ∧ row.getD 1 ("") = ("4" : String)
      ∧ (row.getD 0 ("")).length = 3 :=
  ⟨record ("r/é"), by decide, by decide, by decide, by decide, by decide⟩

/-- Claim C2 (amended): for every data row written to the CSV, the
`path_length` field equals the number of UTF-8 code units (bytes) of
that row's `path` field — Go's `len(path)` — which coincides with the
character count exactly when the path is ASCII. -/
theorem c2_path_length_is_byte_count (bs : Nat) (root : String)
    (tree : List FSEntry) (row : List String)
    (hrow : row ∈ (runMain bs root tree).csvRows) (hhd : row ≠ headerRow) :
    row.getD 1 ("") = Nat.repr ((row.getD 0 ("")).utf8ByteSize) := by
  rw [runMain_rows] at hrow
  rcases List.mem_cons.mp hrow with h | hrow
  · exact absurd h hhd
  · rcases List.mem_map.mp hrow with ⟨p, hp, hrec⟩
    rw [← hrec]
    simp [record]

/-- Claim C2 (amended) witness: the theorem applied to the data row
of a one-file tree. -/
theorem c2_path_length_is_byte_count_witness :
    (record ("r/é")).getD 1 ("")
      = Nat.repr (((record ("r/é")).getD 0 ("")).utf8ByteSize) :=
  c2_path_length_is_byte_count 100 ("r") [FSEntry.file ("é")]
    (record ("r/é")) (by decide) (by decide)

/-- Claim C3: for every tree and all positive batch sizes, the CSV
output — both as a row list and as the serialized byte content — is
identical: batching never changes which records appear or their order. -/
theorem c3_output_independent_of_batch_size (b1 b2 : Nat) (root : String)
    (tree : List FSEntry) (h1 : 0 < b1) (h2 : 0 < b2) :
    (runMain b1 root tree).csvRows = (runMain b2 root tree).csvRows
      ∧ csvRender (runMain b1 root tree).csvRows
          = csvRender (runMain b2 root tree).csvRows := by
  have h := (runMain_rows b1 root tree).trans (runMain_rows b2 root tree).symm
  exact ⟨h, by rw [h]⟩

/-- Claim C3 witness: batch sizes 1 and 3 on the sample tree. -/
theorem c3_output_independent_of_batch_size_witness :
    (runMain 1 ("r") exTree).csvRows = (runMain 3 ("r") exTree).csvRows
      ∧ csvRender (runMain 1 ("r") exTree).csvRows
          = csvRender (runMain 3 ("r") exTree).csvRows :=
  c3_output_independent_of_batch_size 1 3 ("r") exTree (by decide) (by decide)

/-- Claim C4: the counter equals the number of rows flushed so far at
every observation point (after any prefix of the stream, and after the
final flush); a step changes it only when the step flushes, and then by
exactly the flushed batch's record count, as does the final flush. -/
theorem c4_processed_count_invariant (bs : Nat) (paths : List String)
    (s : WriterState) (p : String) :
    (consumeState bs paths).fileCount = (consumeState bs paths).rows.length
      ∧ (runWriter bs paths).fileCount = (runWriter bs paths).rows.length
      ∧ (step bs s p).fileCount
          = (if bs ≤ s.batch.length + 1 then s.fileCount + (s.batch.length + 1)
             else s.fileCount)
      ∧ (finalFlush s).fileCount = s.fileCount + s.batch.length := by
  refine ⟨foldl_count_eq bs paths initState rfl, runWriter_count_eq bs paths, ?_, ?_⟩
  · by_cases hc : bs ≤ s.batch.length + 1 <;> simp [step, hc]
  · unfold finalFlush
    split
    · simp
    · next h => simp [Nat.eq_zero_of_not_pos h]

/-- Claim C5: a step flushes exactly when the batch reaches
`batch_size` (writing the whole batch and resetting it to empty, and
otherwise writing nothing), the unflushed batch always stays below
`batch_size`, the final flush writes exactly the remaining batch, and
after the run every consumed path appears exactly once, in order, with
no batch left behind. -/
theorem c5_flush_exactly_at_batch_size (bs : Nat) (paths : List String)
    (s : WriterState) (p : String) (h : 0 < bs) :
    ((runWriter bs paths).rows.map (fun r => r.getD 0 (""))) = paths
      ∧ (runWriter bs paths).batch = []
      ∧ (consumeState bs paths).batch.length < bs
      ∧ ((step bs s p).batch
          = if bs ≤ s.batch.length + 1 then [] else s.batch ++ [record p])
      ∧ ((step bs s p).rows
          = if bs ≤ s.batch.length + 1 then s.rows ++ s.batch ++ [record p]
            else s.rows)
      ∧ (finalFlush s).rows = s.rows ++ s.batch := by
  refine ⟨?_, finalFlush_batch _,
    foldl_batch_lt bs h paths initState (by simpa [initState] using h),
    ?_, ?_, finalFlush_rows s⟩
  · rw [runWriter_rows]
    simp [Function.comp_def, record]
  · by_cases hc : bs ≤ s.batch.length + 1 <;> simp [step, hc]
  · by_cases hc : bs ≤ s.batch.length + 1 <;> simp [step, hc]

/-- Claim C5 witness: batch size 2 on three concrete paths and a
concrete mid-run state. -/
theorem c5_flush_exactly_at_batch_size_witness :
    ((runWriter 2 ["aa", "b", "ccc"]).rows.map (fun r => r.getD 0 (""))) = ["aa", "b", "ccc"]
      ∧ (runWriter 2 ["aa", "b", "ccc"]).batch = []
      ∧ (consumeState 2 ["aa", "b", "ccc"]).batch.length < 2
      ∧ ((step 2 initState ("x")).batch
          = if 2 ≤ initState.batch.length + 1 then [] else initState.batch ++ [record ("x")])
      ∧ ((step 2 initState ("x")).rows
          = if 2 ≤ initState.batch.length + 1 then initState.rows ++ initState.batch ++ [record ("x")]
            else initState.rows)
      ∧ (finalFlush initState).rows = initState.rows ++ initState.batch :=
  c5_flush_exactly_at_batch_size 2 ["aa", "b", "ccc"] initState ("x") (by decide)

/-- Claim C6: if a per-entry callback reports an error — at any depth,
since `e` ranges over every entry whose own walk errors, including a
directory with a failing entry nested arbitrarily deep inside — the
walk aborts immediately: the queued paths are exactly the ones
discovered before the error (the error-free siblings to the left plus
whatever `e` itself emitted before failing), no sibling after `e` and
nothing in any enclosing list contributes a path, and the error becomes
the walk's outcome.  Applied recursively through the `dir` constructor
this covers every position of the failing entry.  End-of-stream is
always reached because the walk is a total function of the tree and
the producer closes the channel on every exit path. -/
theorem c6_traversal_aborts_on_error (p m : String) (e : FSEntry)
    (l1 l2 : List FSEntry) (h : (walkList p l1).2 = none)
    (he : (walkEntry p e).2 = some m) :
    walkList p (l1 ++ e :: l2)
      = ((walkList p l1).1 ++ (walkEntry p e).1, some m) := by
  rw [walkList_append p l1 (e :: l2) h]
  rcases hwe : walkEntry p e with ⟨ps, err⟩
  rw [hwe] at he
  simp only at he
  subst he
  rw [walkList_cons_err p e l2 ps m hwe]

/-- Claim C6 witness: the failing entry is a readable directory whose
own child is unreadable (a nested error), sitting between two files;
the file after it is never pushed. -/
theorem c6_traversal_aborts_on_error_witness :
    walkList ("r") ([FSEntry.file ("a")]
        ++ FSEntry.dir ("d") [FSEntry.unreadableDir ("u") ("EACCES")] :: [FSEntry.file ("z")])
      = ((walkList ("r") [FSEntry.file ("a")]).1
          ++ (walkEntry ("r") (FSEntry.dir ("d") [FSEntry.unreadableDir ("u") ("EACCES")])).1,
         some ("EACCES")) :=
  c6_traversal_aborts_on_error ("r") ("EACCES")
    (FSEntry.dir ("d") [FSEntry.unreadableDir ("u") ("EACCES")])
    [FSEntry.file ("a")] [FSEntry.file ("z")] (by decide) (by decide)

theorem runMain_err (bs : Nat) (root : String) (tree : List FSEntry) (e : String)
    (h : (walkList root tree).2 = some e) :
    (runMain bs root tree).exitCode = 1
      ∧ (runMain bs root tree).stderrErr = some e
      ∧ (runMain bs root tree).finalCount = (walkList root tree).1.length := by
  have hcount := runWriter_count_total bs (walkList root tree).1
  simp only [runMain]
  rcases hw : walkList root tree with ⟨ps, err⟩
  rw [hw] at h hcount
  simp only [hw]
  cases err with
  | none => simp at h
  | some m =>
    simp only [Option.some.injEq] at h
    subst h
    exact ⟨rfl, rfl, hcount⟩

/-- Claim C7: when the walk fails partway, the failure is surfaced only
after the writer has drained every queued path: all of them are written
and stay in the CSV (the final count equals the number of queued paths),
the error is printed to stderr, and the process exits with code 1. -/
theorem c7_error_surfaced_after_drain (bs : Nat) (root : String)
    (tree : List FSEntry) (e : String)
    (h : (walkList root tree).2 = some e) :
    (runMain bs root tree).exitCode = 1
      ∧ (runMain bs root tree).stderrErr = some e
      ∧ (runMain bs root tree).csvRows
          = headerRow :: ((walkList root tree).1.map record)
      ∧ (runMain bs root tree).finalCount = (walkList root tree).1.length := by
  obtain ⟨h1, h2, h3⟩ := runMain_err bs root tree e h
  exact ⟨h1, h2, runMain_rows bs root tree, h3⟩

/-- Claim C7 witness: one file is queued before the walk hits an
unreadable directory. -/
theorem c7_error_surfaced_after_drain_witness :
    (runMain 100 ("r") [FSEntry.file ("a"), FSEntry.unreadableDir ("d") ("boom"), FSEntry.file ("z")]).exitCode = 1
      ∧ (runMain 100 ("r") [FSEntry.file ("a"), FSEntry.unreadableDir ("d") ("boom"), FSEntry.file ("z")]).stderrErr = some ("boom")
      ∧ (runMain 100 ("r") [FSEntry.file ("a"), FSEntry.unreadableDir ("d") ("boom"), FSEntry.file ("z")]).csvRows
          = headerRow :: ((walkList ("r") [FSEntry.file ("a"), FSEntry.unreadableDir ("d") ("boom"), FSEntry.file ("z")]).1.map record)
      ∧ (runMain 100 ("r") [FSEntry.file ("a"), FSEntry.unreadableDir ("d") ("boom"), FSEntry.file ("z")]).finalCount
          = (walkList ("r") [FSEntry.file ("a"), FSEntry.unreadableDir ("d") ("boom"), FSEntry.file ("z")]).1.length :=
  c7_error_surfaced_after_drain 100 ("r")
    [FSEntry.file ("a"), FSEntry.unreadableDir ("d") ("boom"), FSEntry.file ("z")]
    ("boom") (by decide)

/-- Claim C8: every validation failure — missing argument, malformed,
out-of-range or non-positive batch size, stat error, or target not a
directory — reports an error to standard error and exits with code 1
before `os.Create("file_paths.csv")` is reached, so the CSV file is
neither created nor truncated and no other component starts. -/
theorem c8_validation_before_create (args : List String) (st : StatResult)
    (h : args.length < 2
      ∨ (3 ≤ args.length ∧ invalidBatchArg (args.getD 2 ("")) = true)
      ∨ st ≠ StatResult.statDir) :
    (startup args st).exitCode = some 1 ∧ (startup args st).csvCreated = false
      ∧ (startup args st).stderrMsg ≠ none := by
  by_cases h2 : args.length < 2
  · simp [startup, h2]
  · rcases h with h | ⟨h3, hb⟩ | hst
    · exact absurd h h2
    · have hz : parsedBatchSize args = none := by
        unfold parsedBatchSize
        rw [if_pos h3]
        unfold invalidBatchArg at hb
        cases hp : parseBatchSize (args.getD 2 ("")) with
        | none => rfl
        | some n =>
          rw [hp] at hb
          simp only [decide_eq_true_eq] at hb
          simp [hb]
      simp [startup, h2, hz]
    · cases hbs : parsedBatchSize args with
      | none => simp [startup, h2, hbs]
      | some b =>
        cases st with
        | statErr m => simp [startup, h2, hbs]
        | statNonDir => simp [startup, h2, hbs]
        | statDir => exact absurd rfl hst

/-- Claim C8 witness: a run whose batch-size argument is out of the
64-bit range that `strconv.Atoi` accepts. -/
theorem c8_validation_before_create_witness :
    (startup [("prog"), ("dir"), ("99999999999999999999")] StatResult.statDir).exitCode = some 1
      ∧ (startup [("prog"), ("dir"), ("99999999999999999999")] StatResult.statDir).csvCreated = false
      ∧ (startup [("prog"), ("dir"), ("99999999999999999999")] StatResult.statDir).stderrMsg ≠ none :=
  c8_validation_before_create [("prog"), ("dir"), ("99999999999999999999")]
    StatResult.statDir (Or.inr (Or.inl (by decide)))

/-- Claim C9: after consuming any prefix of the stream, the number of
paths popped equals the counter plus the current unflushed batch, the
unflushed batch always stays strictly below `batch_size`, and a run
that discovers fewer than `batch_size` files keeps the counter (hence
the progress display) at 0 until the final flush, which brings it to
the total. -/
theorem c9_progress_lag_invariant (bs : Nat) (paths : List String) (h : 0 < bs) :
    (consumeState bs paths).fileCount + (consumeState bs paths).batch.length
        = paths.length
      ∧ (consumeState bs paths).batch.length < bs
      ∧ (paths.length < bs →
          (consumeState bs paths).fileCount = 0
            ∧ (runWriter bs paths).fileCount = paths.length) := by
  refine ⟨?_, foldl_batch_lt bs h paths initState (by simpa [initState] using h), ?_⟩
  · simpa using foldl_total bs paths initState 0 (by simp [initState])
  · intro hlt
    exact ⟨foldl_count_zero bs paths initState rfl (by simpa [initState] using hlt),
      runWriter_count_total bs paths⟩

/-- Claim C9 witness: two files with batch size 5. -/
theorem c9_progress_lag_invariant_witness :
    (consumeState 5 [("a"), ("bb")]).fileCount + (consumeState 5 [("a"), ("bb")]).batch.length
        = [("a"), ("bb")].length
      ∧ (consumeState 5 [("a"), ("bb")]).batch.length < 5
      ∧ ([("a"), ("bb")].length < 5 →
          (consumeState 5 [("a"), ("bb")]).fileCount = 0
            ∧ (runWriter 5 [("a"), ("bb")]).fileCount = [("a"), ("bb")].length) :=
  c9_progress_lag_invariant 5 [("a"), ("bb")] (by decide)

/-- Claim C10: a symbolic link — whatever its target, including a whole
directory subtree — is emitted as exactly one file row in discovery
order and its target is never descended into: the output is the same
for every `target`, and the walk step on a symlink produces exactly the
one path. -/
theorem c10_symlink_single_row_not_descended (bs : Nat) (root a n b : String)
    (target : List FSEntry) :
    (runMain bs root [FSEntry.file a, FSEntry.symlink n target, FSEntry.file b]).csvRows
        = [headerRow, record (root ++ "/" ++ a), record (root ++ "/" ++ n),
            record (root ++ "/" ++ b)]
      ∧ walkEntry root (FSEntry.symlink n target) = ([root ++ "/" ++ n], none) := by
  constructor
  · rw [runMain_rows]
    simp [walkList, walkEntry]
  · rfl
